import Mathlib

/-!
Shallow embedding of the basis-arbitrage paper-trading bot (src/index.js).

Numbers are modelled by ℚ (exact arithmetic).  A store field that the
program keeps as `null` until the first feed update is an `Option ℚ`
(`none` = never updated).  A portfolio entry is an `Option ℚ`: `none`
covers both "key absent" and the JavaScript NaN that arithmetic on an
absent key produces (any arithmetic on such a value stays `none`, exactly
as any arithmetic on `undefined`/NaN stays NaN); JavaScript's truthiness
test `!x` — false for `undefined`, NaN and `0` — is modelled by `truthy`.
Store fields are explicit `null`s in the source, and `null` coerces to `0`
in JavaScript arithmetic, so store reads use `Option.getD 0`.
-/

namespace BasisBot

/-- Fee configuration: `config.fees` in config.json. -/
structure Fees where
  spotTaker : ℚ
  futuresTaker : ℚ
deriving Repr, DecidableEq

/-- Threshold configuration: `config.arbitrage`. -/
structure Arbitrage where
  openThresholdPercent : ℚ
  closeThresholdPercent : ℚ
  fundingRateThresholdPercent : ℚ
deriving Repr, DecidableEq

/-- Paper-trading configuration: `config.paperTrading` (the initial balance
map is part of the bot state, not needed here). -/
structure PaperTrading where
  tradeAmountUSDT : ℚ
deriving Repr, DecidableEq

/-- The configuration surface the decision/ledger core reads. -/
structure Config where
  spotSymbol : String
  fees : Fees
  arbitrage : Arbitrage
  paperTrading : PaperTrading
deriving Repr, DecidableEq

/-- `this.config.spotSymbol.split('/')[0]`: the base currency name, i.e.
the characters of the spot symbol before the first `/` (the whole symbol
when no `/` occurs, which is exactly what `split` returns at index 0). -/
def Config.baseCurrency (cfg : Config) : String :=
  String.mk (cfg.spotSymbol.data.takeWhile (fun c => c ≠ '/'))

/-- The price/rate store: `this.spotPrice`, `this.futuresPrice`,
`this.fundingRate`; each field is `null` (`none`) until first updated.
`fundingRate` is already a percentage (the fetcher multiplies by 100). -/
structure Store where
  spotBid : Option ℚ
  spotAsk : Option ℚ
  futuresBid : Option ℚ
  futuresAsk : Option ℚ
  fundingRate : Option ℚ
deriving Repr, DecidableEq

/-- `this.currentPosition` when non-null (`entryTimestamp` is a wall-clock
timestamp with no numeric role and is omitted). -/
structure Position where
  amount : ℚ
  entrySpotPrice : ℚ
  entryFuturesPrice : ℚ
  initialBasisPercent : ℚ
deriving Repr, DecidableEq

/-- `this.paperPortfolio`: a JavaScript object mapping asset symbols to
balances; `none` = key absent (or NaN, see the module comment). -/
def Portfolio := String → Option ℚ

/-- The mutable state of the bot relevant to the decision/ledger core. -/
structure BotState where
  store : Store
  currentPosition : Option Position
  paperPortfolio : Portfolio

/-- JavaScript truthiness of a stored number: `undefined`, NaN and `0`
are falsy. -/
def truthy : Option ℚ → Bool
  | none => false
  | some q => q ≠ 0

/-- Point update of one portfolio key. -/
def updateEntry (p : Portfolio) (k : String) (f : Option ℚ → Option ℚ) : Portfolio :=
  fun k' => if k' = k then f (p k) else p k'

/-- The evaluator decision (§4.2 of the spec). -/
inductive Decision where
  | NoAction
  | Open
  | Close
deriving Repr, DecidableEq

/-- The decision part of `checkArbitrageOpportunity` (src/index.js lines
123–141): the guard `!spotAsk || !futuresBid || fundingRate === null`,
then the threshold comparisons, branched on the presence of a position. -/
def evaluate (cfg : Config) (st : Store) (pos : Option Position) : Decision :=
  if ¬ truthy st.spotAsk ∨ ¬ truthy st.futuresBid ∨ st.fundingRate = none then
    Decision.NoAction
  else
    let spotAsk := st.spotAsk.getD 0
    let futuresBid := st.futuresBid.getD 0
    let fundingRate := st.fundingRate.getD 0
    let basis := futuresBid - spotAsk
    let basisPercent := basis / spotAsk * 100
    match pos with
    | none =>
        if basisPercent > cfg.arbitrage.openThresholdPercent ∧
           fundingRate > cfg.arbitrage.fundingRateThresholdPercent then
          Decision.Open
        else Decision.NoAction
    | some _ =>
        if basisPercent < cfg.arbitrage.closeThresholdPercent then
          Decision.Close
        else Decision.NoAction

/-- `basisPercent` as computed at src/index.js line 128–129. -/
def basisPercentOf (st : Store) : ℚ :=
  (st.futuresBid.getD 0 - st.spotAsk.getD 0) / st.spotAsk.getD 0 * 100

/-- `simulateOpenPosition` (src/index.js lines 143–170): debit the USDT
entry by notional plus both taker fees, create the base-currency entry at
0 when falsy, credit it with the bought amount, and record the position. -/
def simulateOpenPosition (cfg : Config) (s : BotState) (basisPercent : ℚ) : BotState :=
  let tradeAmount := cfg.paperTrading.tradeAmountUSDT
  let spotPriceToBuy := s.store.spotAsk.getD 0
  let futuresPriceToSell := s.store.futuresBid.getD 0
  let amount := tradeAmount / spotPriceToBuy
  let spotFee := tradeAmount * cfg.fees.spotTaker
  let futuresFee := amount * futuresPriceToSell * cfg.fees.futuresTaker
  let baseCurrency := cfg.baseCurrency
  let p1 := updateEntry s.paperPortfolio "USDT"
    (fun v => v.map (fun q => q - (tradeAmount + spotFee + futuresFee)))
  let p2 := if truthy (p1 baseCurrency) then p1
            else updateEntry p1 baseCurrency (fun _ => some 0)
  let p3 := updateEntry p2 baseCurrency (fun v => v.map (fun q => q + amount))
  { s with
    paperPortfolio := p3
    currentPosition := some
      { amount := amount
        entrySpotPrice := spotPriceToBuy
        entryFuturesPrice := futuresPriceToSell
        initialBasisPercent := basisPercent } }

/-- Body of `simulateClosePosition` (src/index.js lines 172–203) once the
position has been read: the ledger mutation and the reported net PnL. -/
def simulateClosePositionBody (cfg : Config) (s : BotState) (position : Position) :
    BotState × ℚ :=
  let amount := position.amount
  let spotPriceToSell := s.store.spotBid.getD 0
  let futuresPriceToBuy := s.store.futuresAsk.getD 0
  let baseCurrency := cfg.baseCurrency
  let spotSellValue := amount * spotPriceToSell
  let spotFee := spotSellValue * cfg.fees.spotTaker
  let futuresFee := amount * futuresPriceToBuy * cfg.fees.futuresTaker
  let spotPnL := (spotPriceToSell - position.entrySpotPrice) * amount
  let futuresPnL := (position.entryFuturesPrice - futuresPriceToBuy) * amount
  let totalFees := spotSellValue * cfg.fees.spotTaker
    + amount * futuresPriceToBuy * cfg.fees.futuresTaker
    + position.amount * position.entrySpotPrice * cfg.fees.spotTaker
    + position.amount * position.entryFuturesPrice * cfg.fees.futuresTaker
  let netPnL := spotPnL + futuresPnL - totalFees
  let p1 := updateEntry s.paperPortfolio "USDT"
    (fun v => v.map (fun q => q + (spotSellValue - spotFee - futuresFee)))
  let p2 := updateEntry p1 baseCurrency (fun v => v.map (fun q => q - amount))
  ({ s with paperPortfolio := p2, currentPosition := none }, netPnL)

/-- `simulateClosePosition` as invoked on an arbitrary state: the source
reads `this.currentPosition.amount` first, so a call while flat throws a
TypeError before any portfolio mutation; that is the `Except.error` case. -/
def simulateClosePosition (cfg : Config) (s : BotState) :
    Except String (BotState × ℚ) :=
  match s.currentPosition with
  | none => Except.error "TypeError: cannot read property of null"
  | some position => Except.ok (simulateClosePositionBody cfg s position)

/-- One pass of `checkArbitrageOpportunity` (src/index.js lines 123–141),
decision and execution together, as a state transformer. -/
def checkArbitrageOpportunity (cfg : Config) (s : BotState) : BotState :=
  if ¬ truthy s.store.spotAsk ∨ ¬ truthy s.store.futuresBid ∨
     s.store.fundingRate = none then
    s
  else
    let basisPercent := basisPercentOf s.store
    match s.currentPosition with
    | none =>
        if basisPercent > cfg.arbitrage.openThresholdPercent ∧
           s.store.fundingRate.getD 0 > cfg.arbitrage.fundingRateThresholdPercent then
          simulateOpenPosition cfg s basisPercent
        else s
    | some position =>
        if basisPercent < cfg.arbitrage.closeThresholdPercent then
          (simulateClosePositionBody cfg s position).1
        else s

/-! Basic lemmas about portfolio point updates. -/

theorem updateEntry_same (p : Portfolio) (k : String) (f : Option ℚ → Option ℚ) :
    updateEntry p k f k = f (p k) := by
  simp [updateEntry]

theorem updateEntry_ne (p : Portfolio) (k : String) (f : Option ℚ → Option ℚ)
    (k' : String) (h : k' ≠ k) : updateEntry p k f k' = p k' := by
  simp [updateEntry, h]

/-! Concrete fixtures used by the witness theorems (scenario-1 style
numbers: spot ask 100, futures bid 101, funding rate 0.05%). -/

def demoCfg : Config :=
  { spotSymbol := "BTC/USDT"
    fees := { spotTaker := 1/1000, futuresTaker := 1/1000 }
    arbitrage := { openThresholdPercent := 1/2, closeThresholdPercent := 1/10,
                   fundingRateThresholdPercent := 1/100 }
    paperTrading := { tradeAmountUSDT := 1000 } }

def demoStore : Store :=
  { spotBid := some 100, spotAsk := some 100, futuresBid := some 101,
    futuresAsk := some 101, fundingRate := some (1/20) }

def demoPortfolio : Portfolio :=
  fun k => if k = "USDT" then some 10000 else if k = "BTC" then some 2 else none

def demoPosition : Position :=
  { amount := 10, entrySpotPrice := 100, entryFuturesPrice := 101,
    initialBasisPercent := 1 }

def demoFlat : BotState :=
  { store := demoStore, currentPosition := none, paperPortfolio := demoPortfolio }

def demoPositioned : BotState :=
  { store := demoStore, currentPosition := some demoPosition,
    paperPortfolio := demoPortfolio }

def demoUnknownFutures : BotState :=
  { store := { demoStore with futuresBid := none }, currentPosition := none,
    paperPortfolio := demoPortfolio }

/-- C6: when the spot ask, the futures bid or the funding rate has never
been updated, the evaluator decides `NoAction` and the combined
decision-and-execution pass leaves the state untouched. -/
theorem evaluate_unknown_noaction (cfg : Config) (s : BotState)
    (h : s.store.spotAsk = none ∨ s.store.futuresBid = none ∨
         s.store.fundingRate = none) :
    evaluate cfg s.store s.currentPosition = Decision.NoAction ∧
    checkArbitrageOpportunity cfg s = s := by
  rcases h with h | h | h <;>
    simp [evaluate, checkArbitrageOpportunity, truthy, h]

/-- Witness for C6: futures bid unknown, everything else populated. -/
theorem evaluate_unknown_noaction_witness :
    demoUnknownFutures.store.futuresBid = none ∧
    (evaluate demoCfg demoUnknownFutures.store demoUnknownFutures.currentPosition
        = Decision.NoAction ∧
     checkArbitrageOpportunity demoCfg demoUnknownFutures = demoUnknownFutures) :=
  ⟨rfl, evaluate_unknown_noaction demoCfg demoUnknownFutures (Or.inr (Or.inl rfl))⟩

/-- C9: a stored spot ask of 0 is falsy in the guard, so it is treated
exactly like an unknown value: the evaluator decides `NoAction` and the
pass is the identity, hence `basis / spotAsk` is never computed with a
zero denominator. -/
theorem evaluate_zero_spot_ask_noaction (cfg : Config) (s : BotState)
    (h : s.store.spotAsk = none ∨ s.store.spotAsk = some 0) :
    evaluate cfg s.store s.currentPosition = Decision.NoAction ∧
    checkArbitrageOpportunity cfg s = s := by
  rcases h with h | h <;>
    simp [evaluate, checkArbitrageOpportunity, truthy, h]

/-- Witness for C9: spot ask equal to 0 with all other data populated. -/
theorem evaluate_zero_spot_ask_noaction_witness :
    ({ demoFlat with store := { demoStore with spotAsk := some 0 } } :
        BotState).store.spotAsk = some 0 ∧
    (evaluate demoCfg { demoStore with spotAsk := some 0 } none
        = Decision.NoAction ∧
     checkArbitrageOpportunity demoCfg
        { demoFlat with store := { demoStore with spotAsk := some 0 } }
        = { demoFlat with store := { demoStore with spotAsk := some 0 } }) :=
  ⟨rfl, evaluate_zero_spot_ask_noaction demoCfg
      { demoFlat with store := { demoStore with spotAsk := some 0 } }
      (Or.inr rfl)⟩

/-- C8: invoking the close operation while flat raises (the source reads
`this.currentPosition.amount` on `null` before touching any balance), so
no `Except.ok` state is ever produced from a flat state. -/
theorem simulateClosePosition_flat_error (cfg : Config) (s : BotState)
    (h : s.currentPosition = none) :
    simulateClosePosition cfg s
      = Except.error "TypeError: cannot read property of null" ∧
    ∀ r : BotState × ℚ, simulateClosePosition cfg s ≠ Except.ok r := by
  constructor
  · simp [simulateClosePosition, h]
  · intro r
    simp [simulateClosePosition, h]

/-- Witness for C8: the demo flat state. -/
theorem simulateClosePosition_flat_error_witness :
    demoFlat.currentPosition = none ∧
    (simulateClosePosition demoCfg demoFlat
        = Except.error "TypeError: cannot read property of null" ∧
     ∀ r : BotState × ℚ, simulateClosePosition demoCfg demoFlat ≠ Except.ok r) :=
  ⟨rfl, simulateClosePosition_flat_error demoCfg demoFlat rfl⟩

/-- C10: the open pass and the close pass write only the literal key
`"USDT"` and the base-currency key derived from `config.spotSymbol`;
every other portfolio entry and the whole price/rate store are unchanged
(the configuration is a read-only parameter throughout). -/
theorem ledger_frame (cfg : Config) (s : BotState) (bp : ℚ) (pos : Position)
    (k : String) (hk1 : k ≠ "USDT") (hk2 : k ≠ cfg.baseCurrency) :
    (simulateOpenPosition cfg s bp).paperPortfolio k = s.paperPortfolio k ∧
    (simulateOpenPosition cfg s bp).store = s.store ∧
    (simulateClosePositionBody cfg s pos).1.paperPortfolio k
      = s.paperPortfolio k ∧
    (simulateClosePositionBody cfg s pos).1.store = s.store := by
  refine ⟨?_, rfl, ?_, rfl⟩
  · simp only [simulateOpenPosition]
    split
    · rw [updateEntry_ne _ _ _ _ hk2, updateEntry_ne _ _ _ _ hk1]
    · rw [updateEntry_ne _ _ _ _ hk2, updateEntry_ne _ _ _ _ hk2,
          updateEntry_ne _ _ _ _ hk1]
  · simp only [simulateClosePositionBody]
    rw [updateEntry_ne _ _ _ _ hk2, updateEntry_ne _ _ _ _ hk1]

/-- Witness for C10: the key `"ETH"` differs from both `"USDT"` and the
demo base currency `"BTC"`, and is untouched by open and close. -/
theorem ledger_frame_witness :
    ("ETH" ≠ "USDT" ∧ "ETH" ≠ demoCfg.baseCurrency) ∧
    ((simulateOpenPosition demoCfg demoFlat 1).paperPortfolio "ETH"
        = demoFlat.paperPortfolio "ETH" ∧
     (simulateOpenPosition demoCfg demoFlat 1).store = demoFlat.store ∧
     (simulateClosePositionBody demoCfg demoPositioned demoPosition).1.paperPortfolio "ETH"
        = demoPositioned.paperPortfolio "ETH" ∧
     (simulateClosePositionBody demoCfg demoPositioned demoPosition).1.store
        = demoPositioned.store) :=
  ⟨⟨by decide, by decide⟩,
   by
     have h1 := ledger_frame demoCfg demoFlat 1 demoPosition "ETH"
       (by decide) (by decide)
     have h2 := ledger_frame demoCfg demoPositioned 1 demoPosition "ETH"
       (by decide) (by decide)
     exact ⟨h1.1, h1.2.1, h2.2.2.1, h2.2.2.2⟩⟩

/-- C1 (amended): with the spot ask, futures bid and funding rate all
known and both prices nonzero (a zero price is falsy and hence treated
as unknown by the guard), the evaluator returns `Open` from a flat state
iff the basis percentage strictly exceeds the open threshold and the
funding-rate percentage strictly exceeds its threshold, and returns
`Close` from a positioned state iff the basis percentage is strictly
below the close threshold; equality with a threshold never triggers. -/
theorem evaluate_known_flat (cfg : Config) (st : Store) (a b f : ℚ)
    (ha : st.spotAsk = some a) (ha0 : a ≠ 0)
    (hb : st.futuresBid = some b) (hb0 : b ≠ 0)
    (hf : st.fundingRate = some f) :
    evaluate cfg st none =
      if (b - a) / a * 100 > cfg.arbitrage.openThresholdPercent ∧
         f > cfg.arbitrage.fundingRateThresholdPercent
      then Decision.Open else Decision.NoAction := by
  have hcond : ¬ (¬ truthy st.spotAsk = true ∨ ¬ truthy st.futuresBid = true ∨
                  st.fundingRate = none) := by
    simp [truthy, ha, hb, hf, ha0, hb0]
  unfold evaluate
  rw [if_neg hcond, ha, hb, hf]
  exact rfl

theorem evaluate_known_positioned (cfg : Config) (st : Store) (p : Position)
    (a b f : ℚ)
    (ha : st.spotAsk = some a) (ha0 : a ≠ 0)
    (hb : st.futuresBid = some b) (hb0 : b ≠ 0)
    (hf : st.fundingRate = some f) :
    evaluate cfg st (some p) =
      if (b - a) / a * 100 < cfg.arbitrage.closeThresholdPercent
      then Decision.Close else Decision.NoAction := by
  have hcond : ¬ (¬ truthy st.spotAsk = true ∨ ¬ truthy st.futuresBid = true ∨
                  st.fundingRate = none) := by
    simp [truthy, ha, hb, hf, ha0, hb0]
  unfold evaluate
  rw [if_neg hcond, ha, hb, hf]
  exact rfl

theorem evaluate_threshold_iff (cfg : Config) (st : Store)
    (pos : Option Position) (a b f : ℚ)
    (ha : st.spotAsk = some a) (ha0 : a ≠ 0)
    (hb : st.futuresBid = some b) (hb0 : b ≠ 0)
    (hf : st.fundingRate = some f) :
    (pos = none →
      (evaluate cfg st pos = Decision.Open ↔
        (b - a) / a * 100 > cfg.arbitrage.openThresholdPercent ∧
        f > cfg.arbitrage.fundingRateThresholdPercent)) ∧
    (∀ p : Position, pos = some p →
      (evaluate cfg st pos = Decision.Close ↔
        (b - a) / a * 100 < cfg.arbitrage.closeThresholdPercent)) := by
  constructor
  · rintro rfl
    rw [evaluate_known_flat cfg st a b f ha ha0 hb hb0 hf]
    split_ifs with h
    · exact iff_of_true rfl h
    · exact iff_of_false (by simp) h
  · rintro p rfl
    rw [evaluate_known_positioned cfg st p a b f ha ha0 hb hb0 hf]
    split_ifs with h
    · exact iff_of_true rfl h
    · exact iff_of_false (by simp) h

/-- Witness for C1 (amended): scenario-1 numbers, flat state; the basis
of 1% exceeds the 0.5% open threshold and the funding rate 0.05% exceeds
the 0.01% floor. -/
theorem evaluate_threshold_iff_witness :
    (demoStore.spotAsk = some 100 ∧ (100 : ℚ) ≠ 0 ∧
     demoStore.futuresBid = some 101 ∧ (101 : ℚ) ≠ 0 ∧
     demoStore.fundingRate = some (1/20)) ∧
    ((none = (none : Option Position) →
      (evaluate demoCfg demoStore none = Decision.Open ↔
        ((101 : ℚ) - 100) / 100 * 100 > demoCfg.arbitrage.openThresholdPercent ∧
        (1/20 : ℚ) > demoCfg.arbitrage.fundingRateThresholdPercent)) ∧
     (∀ p : Position, (none : Option Position) = some p →
      (evaluate demoCfg demoStore none = Decision.Close ↔
        ((101 : ℚ) - 100) / 100 * 100 < demoCfg.arbitrage.closeThresholdPercent))) :=
  ⟨⟨rfl, by norm_num, rfl, by norm_num, rfl⟩,
   evaluate_threshold_iff demoCfg demoStore none 100 101 (1/20)
     rfl (by norm_num) rfl (by norm_num) rfl⟩

/-- Counterexample to C1 as stated: with spot ask 100, futures bid 0 and
funding rate all known, and a position open, the basis percentage is
-100, strictly below the close threshold, yet the evaluator does not
return `Close`: the guard treats the falsy (zero) futures bid like an
unknown value and short-circuits to no action. -/
theorem evaluate_threshold_counterexample :
    evaluate demoCfg { demoStore with futuresBid := some 0 }
        (some demoPosition) ≠ Decision.Close ∧
    ((0 : ℚ) - 100) / 100 * 100
      < demoCfg.arbitrage.closeThresholdPercent := by
  constructor
  · have h : evaluate demoCfg { demoStore with futuresBid := some 0 }
        (some demoPosition) = Decision.NoAction := by
      norm_num [evaluate, truthy, demoStore]
    rw [h]
    decide
  · norm_num [demoCfg]

/-- C7: the entry fees recomputed at close time from the recorded
position (`amount * entrySpotPrice * spotTaker` and
`amount * entryFuturesPrice * futuresTaker`, src/index.js lines 189-190)
coincide exactly with the fees charged at open time
(`tradeAmount * spotTaker` and `amount * futuresBid * futuresTaker`,
lines 151-152), in exact arithmetic, when the fee rates are unchanged. -/
theorem entry_fee_recomputation (cfg : Config) (s : BotState) (bp a b : ℚ)
    (hsa : s.store.spotAsk = some a) (ha0 : a ≠ 0)
    (hfb : s.store.futuresBid = some b) :
    ∃ pos : Position,
      (simulateOpenPosition cfg s bp).currentPosition = some pos ∧
      pos.amount * pos.entrySpotPrice * cfg.fees.spotTaker
        = cfg.paperTrading.tradeAmountUSDT * cfg.fees.spotTaker ∧
      pos.amount * pos.entryFuturesPrice * cfg.fees.futuresTaker
        = (cfg.paperTrading.tradeAmountUSDT / a) * b * cfg.fees.futuresTaker := by
  refine ⟨{ amount := cfg.paperTrading.tradeAmountUSDT / a, entrySpotPrice := a,
            entryFuturesPrice := b, initialBasisPercent := bp }, ?_, ?_, rfl⟩
  · simp [simulateOpenPosition, hsa, hfb]
  · show cfg.paperTrading.tradeAmountUSDT / a * a * cfg.fees.spotTaker = _
    rw [div_mul_cancel₀ _ ha0]

/-- Witness for C7: demo numbers, entry spot price 100. -/
theorem entry_fee_recomputation_witness :
    (demoFlat.store.spotAsk = some 100 ∧ (100 : ℚ) ≠ 0 ∧
     demoFlat.store.futuresBid = some 101) ∧
    (∃ pos : Position,
      (simulateOpenPosition demoCfg demoFlat 1).currentPosition = some pos ∧
      pos.amount * pos.entrySpotPrice * demoCfg.fees.spotTaker
        = demoCfg.paperTrading.tradeAmountUSDT * demoCfg.fees.spotTaker ∧
      pos.amount * pos.entryFuturesPrice * demoCfg.fees.futuresTaker
        = (demoCfg.paperTrading.tradeAmountUSDT / 100) * 101
            * demoCfg.fees.futuresTaker) :=
  ⟨⟨rfl, by norm_num, rfl⟩,
   entry_fee_recomputation demoCfg demoFlat 1 100 101 rfl (by norm_num) rfl⟩

/-! Helpers about truthiness of portfolio entries. -/

theorem truthy_some_getD (v : Option ℚ) (h : truthy v = true) :
    v = some (v.getD 0) := by
  cases v with
  | none => simp [truthy] at h
  | some q => rfl

theorem truthy_false_getD (v : Option ℚ) (h : ¬ truthy v = true) :
    v.getD 0 = 0 := by
  cases v with
  | none => rfl
  | some q =>
    simp [truthy] at h
    simp [h]

/-- C3: opening with notional `N` at a nonzero spot ask `a` and futures
bid `b` buys `amount = N / a`, debits the USDT entry by exactly
`N + N * spotTaker + amount * b * futuresTaker`, credits the
base-currency entry by exactly `amount` (creating it at 0 when falsy),
and records the position with these entry prices. -/
theorem simulateOpenPosition_spec (cfg : Config) (s : BotState) (bp a b u : ℚ)
    (hsa : s.store.spotAsk = some a) (ha0 : a ≠ 0)
    (hfb : s.store.futuresBid = some b)
    (hu : s.paperPortfolio "USDT" = some u)
    (hkey : cfg.baseCurrency ≠ "USDT") :
    (simulateOpenPosition cfg s bp).paperPortfolio "USDT"
      = some (u - (cfg.paperTrading.tradeAmountUSDT
                   + cfg.paperTrading.tradeAmountUSDT * cfg.fees.spotTaker
                   + (cfg.paperTrading.tradeAmountUSDT / a) * b
                       * cfg.fees.futuresTaker)) ∧
    (simulateOpenPosition cfg s bp).paperPortfolio cfg.baseCurrency
      = some ((s.paperPortfolio cfg.baseCurrency).getD 0
              + cfg.paperTrading.tradeAmountUSDT / a) ∧
    (simulateOpenPosition cfg s bp).currentPosition
      = some { amount := cfg.paperTrading.tradeAmountUSDT / a
               entrySpotPrice := a
               entryFuturesPrice := b
               initialBasisPercent := bp } := by
  refine ⟨?_, ?_, ?_⟩
  · simp only [simulateOpenPosition, hsa, hfb, Option.getD_some]
    rw [updateEntry_ne _ _ _ _ (Ne.symm hkey)]
    split
    · rw [updateEntry_same, hu]
      rfl
    · rw [updateEntry_ne _ _ _ _ (Ne.symm hkey), updateEntry_same, hu]
      rfl
  · simp only [simulateOpenPosition, hsa, hfb, Option.getD_some]
    rw [updateEntry_same]
    split
    · rename_i htr
      rw [updateEntry_ne _ _ _ _ hkey] at htr ⊢
      rw [truthy_some_getD _ htr]
      rfl
    · rename_i htr
      rw [updateEntry_same]
      rw [updateEntry_ne _ _ _ _ hkey] at htr
      rw [truthy_false_getD _ htr]
      rfl
  · simp [simulateOpenPosition, hsa, hfb]

/-- Witness for C3: demo numbers, USDT balance 10000, BTC balance 2. -/
theorem simulateOpenPosition_spec_witness :
    (demoFlat.store.spotAsk = some 100 ∧ (100 : ℚ) ≠ 0 ∧
     demoFlat.store.futuresBid = some 101 ∧
     demoFlat.paperPortfolio "USDT" = some 10000 ∧
     demoCfg.baseCurrency ≠ "USDT") ∧
    ((simulateOpenPosition demoCfg demoFlat 1).paperPortfolio "USDT"
      = some (10000 - (demoCfg.paperTrading.tradeAmountUSDT
                   + demoCfg.paperTrading.tradeAmountUSDT * demoCfg.fees.spotTaker
                   + (demoCfg.paperTrading.tradeAmountUSDT / 100) * 101
                       * demoCfg.fees.futuresTaker)) ∧
     (simulateOpenPosition demoCfg demoFlat 1).paperPortfolio demoCfg.baseCurrency
      = some ((demoFlat.paperPortfolio demoCfg.baseCurrency).getD 0
              + demoCfg.paperTrading.tradeAmountUSDT / 100) ∧
     (simulateOpenPosition demoCfg demoFlat 1).currentPosition
      = some { amount := demoCfg.paperTrading.tradeAmountUSDT / 100
               entrySpotPrice := 100
               entryFuturesPrice := 101
               initialBasisPercent := 1 }) :=
  ⟨⟨rfl, by norm_num, rfl, rfl, by decide⟩,
   simulateOpenPosition_spec demoCfg demoFlat 1 100 101 10000
     rfl (by norm_num) rfl rfl (by decide)⟩

/-- C2: closing an open position at exit quote (spot bid `sb`, futures
ask `fa`) reports `netPnL = spotPnL + futuresPnL - totalFees`, credits
the USDT entry by exactly `spotSellValue - exitSpotFee - exitFuturesFee`,
debits the base-currency entry by exactly `amount`, and always clears the
position. -/
theorem simulateClosePosition_spec (cfg : Config) (s : BotState)
    (pos : Position) (sb fa u bq : ℚ)
    (hpos : s.currentPosition = some pos)
    (hsb : s.store.spotBid = some sb) (hfa : s.store.futuresAsk = some fa)
    (hu : s.paperPortfolio "USDT" = some u)
    (hbq : s.paperPortfolio cfg.baseCurrency = some bq)
    (hkey : cfg.baseCurrency ≠ "USDT") :
    ∃ r : BotState × ℚ, simulateClosePosition cfg s = Except.ok r ∧
      r.2 = (sb - pos.entrySpotPrice) * pos.amount
          + (pos.entryFuturesPrice - fa) * pos.amount
          - (pos.amount * sb * cfg.fees.spotTaker
             + pos.amount * fa * cfg.fees.futuresTaker
             + pos.amount * pos.entrySpotPrice * cfg.fees.spotTaker
             + pos.amount * pos.entryFuturesPrice * cfg.fees.futuresTaker) ∧
      r.1.paperPortfolio "USDT"
        = some (u + (pos.amount * sb
                     - pos.amount * sb * cfg.fees.spotTaker
                     - pos.amount * fa * cfg.fees.futuresTaker)) ∧
      r.1.paperPortfolio cfg.baseCurrency = some (bq - pos.amount) ∧
      r.1.currentPosition = none := by
  refine ⟨simulateClosePositionBody cfg s pos, ?_, ?_, ?_, ?_, rfl⟩
  · simp [simulateClosePosition, hpos]
  · simp only [simulateClosePositionBody, hsb, hfa, Option.getD_some]
  · simp only [simulateClosePositionBody, hsb, hfa, Option.getD_some]
    rw [updateEntry_ne _ _ _ _ (Ne.symm hkey), updateEntry_same, hu]
    rfl
  · simp only [simulateClosePositionBody, hsb, hfa, Option.getD_some]
    rw [updateEntry_same, updateEntry_ne _ _ _ _ hkey, hbq]
    rfl

/-- Witness for C2: demo positioned state, exit at spot bid 100 and
futures ask 101. -/
theorem simulateClosePosition_spec_witness :
    (demoPositioned.currentPosition = some demoPosition ∧
     demoPositioned.store.spotBid = some 100 ∧
     demoPositioned.store.futuresAsk = some 101 ∧
     demoPositioned.paperPortfolio "USDT" = some 10000 ∧
     demoPositioned.paperPortfolio demoCfg.baseCurrency = some 2 ∧
     demoCfg.baseCurrency ≠ "USDT") ∧
    (∃ r : BotState × ℚ, simulateClosePosition demoCfg demoPositioned = Except.ok r ∧
      r.2 = ((100 : ℚ) - demoPosition.entrySpotPrice) * demoPosition.amount
          + (demoPosition.entryFuturesPrice - 101) * demoPosition.amount
          - (demoPosition.amount * 100 * demoCfg.fees.spotTaker
             + demoPosition.amount * 101 * demoCfg.fees.futuresTaker
             + demoPosition.amount * demoPosition.entrySpotPrice
                 * demoCfg.fees.spotTaker
             + demoPosition.amount * demoPosition.entryFuturesPrice
                 * demoCfg.fees.futuresTaker) ∧
      r.1.paperPortfolio "USDT"
        = some (10000 + (demoPosition.amount * 100
                     - demoPosition.amount * 100 * demoCfg.fees.spotTaker
                     - demoPosition.amount * 101 * demoCfg.fees.futuresTaker)) ∧
      r.1.paperPortfolio demoCfg.baseCurrency = some (2 - demoPosition.amount) ∧
      r.1.currentPosition = none) :=
  ⟨⟨rfl, rfl, rfl, rfl, rfl, by decide⟩,
   simulateClosePosition_spec demoCfg demoPositioned demoPosition 100 101 10000 2
     rfl rfl rfl rfl rfl (by decide)⟩

/-- C4: opening and then immediately closing with unchanged prices
(exit spot bid equal to the entry spot ask `a`, exit futures ask equal
to the entry futures bid `b`) reports a net PnL equal to minus the total
fees: both price-movement terms vanish and only the four fee terms
remain. -/
theorem round_trip_fee_only (cfg : Config) (s : BotState) (bp a b : ℚ)
    (hsa : s.store.spotAsk = some a) (ha0 : a ≠ 0)
    (hfb : s.store.futuresBid = some b)
    (hsb : s.store.spotBid = some a) (hfa : s.store.futuresAsk = some b) :
    ∃ r : BotState × ℚ,
      simulateClosePosition cfg (simulateOpenPosition cfg s bp)
        = Except.ok r ∧
      r.2 = -(cfg.paperTrading.tradeAmountUSDT * cfg.fees.spotTaker
              + (cfg.paperTrading.tradeAmountUSDT / a) * b
                  * cfg.fees.futuresTaker
              + cfg.paperTrading.tradeAmountUSDT * cfg.fees.spotTaker
              + (cfg.paperTrading.tradeAmountUSDT / a) * b
                  * cfg.fees.futuresTaker) := by
  refine ⟨simulateClosePositionBody cfg (simulateOpenPosition cfg s bp)
      { amount := cfg.paperTrading.tradeAmountUSDT / a
        entrySpotPrice := a
        entryFuturesPrice := b
        initialBasisPercent := bp }, ?_, ?_⟩
  · simp [simulateClosePosition, simulateOpenPosition, hsa, hfb]
  · simp only [simulateClosePositionBody, simulateOpenPosition, hsa, hfb,
      hsb, hfa, Option.getD_some]
    have hmul : cfg.paperTrading.tradeAmountUSDT / a * a
        = cfg.paperTrading.tradeAmountUSDT := div_mul_cancel₀ _ ha0
    rw [hmul]
    ring

/-- Witness for C4: demo flat state with spot bid equal to the ask and
futures ask equal to the bid. -/
theorem round_trip_fee_only_witness :
    (demoFlat.store.spotAsk = some 100 ∧ (100 : ℚ) ≠ 0 ∧
     demoFlat.store.futuresBid = some 101 ∧
     demoFlat.store.spotBid = some 100 ∧
     demoFlat.store.futuresAsk = some 101) ∧
    (∃ r : BotState × ℚ,
      simulateClosePosition demoCfg (simulateOpenPosition demoCfg demoFlat 1)
        = Except.ok r ∧
      r.2 = -(demoCfg.paperTrading.tradeAmountUSDT * demoCfg.fees.spotTaker
              + (demoCfg.paperTrading.tradeAmountUSDT / 100) * 101
                  * demoCfg.fees.futuresTaker
              + demoCfg.paperTrading.tradeAmountUSDT * demoCfg.fees.spotTaker
              + (demoCfg.paperTrading.tradeAmountUSDT / 100) * 101
                  * demoCfg.fees.futuresTaker)) :=
  ⟨⟨rfl, by norm_num, rfl, rfl, rfl⟩,
   round_trip_fee_only demoCfg demoFlat 1 100 101 rfl (by norm_num) rfl rfl rfl⟩

/-- C5: the evaluator emits `Open` only from a flat state and `Close`
only from a positioned state; the combined pass leaves an existing
position either untouched or cleared (never replaced or mutated), acts
as the identity on a `NoAction` decision, creates a position exactly on
an `Open` decision, and destroys it exactly on a `Close` decision. -/
theorem decision_state_machine (cfg : Config) (st : Store)
    (op : Option Position) (s : BotState) (p : Position) :
    (evaluate cfg st op = Decision.Open → op = none) ∧
    (evaluate cfg st op = Decision.Close → ∃ q, op = some q) ∧
    (evaluate cfg s.store s.currentPosition = Decision.NoAction →
      checkArbitrageOpportunity cfg s = s) ∧
    (evaluate cfg s.store s.currentPosition = Decision.Open →
      checkArbitrageOpportunity cfg s
        = simulateOpenPosition cfg s (basisPercentOf s.store)) ∧
    (s.currentPosition = some p →
      evaluate cfg s.store s.currentPosition = Decision.Close →
      checkArbitrageOpportunity cfg s = (simulateClosePositionBody cfg s p).1) ∧
    (s.currentPosition = some p →
      (checkArbitrageOpportunity cfg s).currentPosition = some p ∨
      (checkArbitrageOpportunity cfg s).currentPosition = none) := by
  obtain ⟨st0, cp, pf⟩ := s
  refine ⟨?_, ?_, ?_, ?_, ?_, ?_⟩
  · intro h
    cases op with
    | none => rfl
    | some q =>
      exfalso
      simp only [evaluate] at h
      split_ifs at h <;> simp at h
  · intro h
    cases op with
    | none =>
      exfalso
      simp only [evaluate] at h
      split_ifs at h <;> simp at h
    | some q => exact ⟨q, rfl⟩
  · intro h
    cases cp with
    | none =>
      simp only [evaluate] at h
      simp only [checkArbitrageOpportunity, basisPercentOf] at h ⊢
      split_ifs at h ⊢ <;> first | rfl | simp at h
    | some q =>
      simp only [evaluate] at h
      simp only [checkArbitrageOpportunity, basisPercentOf] at h ⊢
      split_ifs at h ⊢ <;> first | rfl | simp at h
  · intro h
    cases cp with
    | some q =>
      exfalso
      simp only [evaluate] at h
      split_ifs at h <;> simp at h
    | none =>
      simp only [evaluate] at h
      simp only [checkArbitrageOpportunity, basisPercentOf] at h ⊢
      split_ifs at h ⊢ <;> first | rfl | simp at h
  · intro hpos h
    simp only at hpos
    subst hpos
    simp only [evaluate] at h
    simp only [checkArbitrageOpportunity, basisPercentOf] at h ⊢
    split_ifs at h ⊢ <;> first | rfl | simp at h
  · intro hpos
    simp only at hpos
    subst hpos
    simp only [checkArbitrageOpportunity]
    split_ifs
    · exact Or.inl rfl
    · exact Or.inr rfl
    · exact Or.inl rfl

/-- A store on which the close condition fires: basis 0%. -/
def demoCloseStore : Store :=
  { demoStore with futuresBid := some 100, futuresAsk := some 100 }

def demoClosePositioned : BotState :=
  { store := demoCloseStore, currentPosition := some demoPosition,
    paperPortfolio := demoPortfolio }

/-- Witness for C5: in the demo positioned state with basis 0% the
evaluator decides `Close`, the pass runs the close body, and the
position afterwards is gone. -/
theorem decision_state_machine_witness :
    (demoClosePositioned.currentPosition = some demoPosition ∧
     evaluate demoCfg demoClosePositioned.store
        demoClosePositioned.currentPosition = Decision.Close) ∧
    (checkArbitrageOpportunity demoCfg demoClosePositioned
        = (simulateClosePositionBody demoCfg demoClosePositioned demoPosition).1 ∧
     ((checkArbitrageOpportunity demoCfg demoClosePositioned).currentPosition
        = some demoPosition ∨
      (checkArbitrageOpportunity demoCfg demoClosePositioned).currentPosition
        = none)) := by
  have hev : evaluate demoCfg demoClosePositioned.store
      demoClosePositioned.currentPosition = Decision.Close := by
    norm_num [evaluate, truthy, demoClosePositioned, demoCloseStore, demoStore,
      demoCfg]
    exact fun h => nomatch h
  have hthm := decision_state_machine demoCfg demoClosePositioned.store
    demoClosePositioned.currentPosition demoClosePositioned demoPosition
  exact ⟨⟨rfl, hev⟩, hthm.2.2.2.2.1 rfl hev, hthm.2.2.2.2.2 rfl⟩

end BasisBot
